import Mathlib

/-
Verification development for the embedding-train data-preparation
pipeline (src/v1/processor.py and src/v1/utils.py), shallowly embedded
in Lean 4.

Modelling conventions:
  * Python values that are dynamically "str or None" are `Option String`
    (`none` = Python `None`); values that are "str or list of str" are
    `StrOrList`.
  * Python functions that can raise are `Except PyError _`; the `PyError`
    constructors mirror the exception kinds the code can raise.
  * A directory on disk is a `Dir`: a listing of file names paired with
    their (already JSON-parsed) record contents.  JSON/JSONL text parsing
    itself is outside the embedding: files are stored parsed, and opening
    a name absent from the listing raises `fileNotFound`, as `open` does.
  * The Hugging Face tokenizer is an abstract `Tokenizer`; the call made
    by `convert_examples_to_features` (padding="max_length",
    truncation=True) is embedded as `encodeWithPadding`, which truncates
    the raw ids to `max_length` and pads with the pad token, producing
    the parallel attention mask, per the library contract.
-/

set_option linter.unusedVariables false
set_option linter.unreachableTactic false
set_option linter.unusedTactic false

namespace EmbeddingTrain

/-- A dynamically typed JSON field value that is either a string or a
list of strings (the two shapes `_create_examples` branches on). -/
inductive StrOrList where
  | str (s : String)
  | list (l : List String)
deriving DecidableEq, Repr

/-- The exception kinds raised by the embedded code. -/
inductive PyError where
  | fileNotFound (path : String)
  | indexError
  | keyError (key : String)
  | valueError (msg : String)
  | typeError
deriving DecidableEq, Repr

/-- A raw record read from `<split>.json` / `<split>.jsonl`: required
keys `query` and `document`, optional key `hard_negative`
(`none` = key absent). -/
structure RawRecord where
  query : StrOrList
  document : StrOrList
  hard_negative : Option StrOrList
deriving DecidableEq, Repr

/-- The `InputExample` dataclass of processor.py.  The
`negative_passage` slot dynamically holds a str or None, hence
`Option String`. -/
structure InputExample where
  query : String
  positive_passage : String
  negative_passage : Option String
deriving DecidableEq, Repr

/-- Python f-string rendering of a value that is a str or None:
`None` prints as the four characters "None". -/
def pyStrOfOptString : Option String → String
  | some s => s
  | none => "None"

/-- The `E5InputExample` constructor: prepends "query: " to the query
and "passage: " to both passages (the negative passage is rendered
through the f-string first, so a None becomes the text "None"). -/
def E5InputExample (query : String) (positive_passage : String)
    (negative_passage : Option String) : InputExample :=
  { query := "query: " ++ query
    positive_passage := "passage: " ++ positive_passage
    negative_passage := some ("passage: " ++ pyStrOfOptString negative_passage) }

/-- The field-extraction branch of `_create_examples`: a list value
yields its element 0 (IndexError on an empty list), a string value is
used as is. -/
def extractFirst : StrOrList → Except PyError String
  | .str s => Except.ok s
  | .list [] => Except.error PyError.indexError
  | .list (x :: _) => Except.ok x

/-- The `if "hard_negative" in data` block of `_create_examples`: when
the key is present its value goes through the list/string branch, when
absent the local is set to None. -/
def extractNegative : Option StrOrList → Except PyError (Option String)
  | some v => Except.map some (extractFirst v)
  | none => Except.ok (none : Option String)

/-- The body of the `_create_examples` loop for one record: extract
query, document and (when the key is present) hard_negative, then build
an `E5InputExample`. -/
def exampleOfRecord (data : RawRecord) : Except PyError InputExample := do
  let query ← extractFirst data.query
  let document ← extractFirst data.document
  let hard_negative ← extractNegative data.hard_negative
  Except.ok (E5InputExample query document hard_negative)

/-- `KoE5MRCProcessor._create_examples`: one `E5InputExample` appended
per raw record, in input order (the `set_type` argument is unused by
the source loop, as here). -/
def create_examples (datas : List RawRecord) (set_type : String) :
    Except PyError (List InputExample) :=
  datas.mapM exampleOfRecord

/-- A directory: file names paired with their parsed record contents. -/
structure Dir where
  files : List (String × List RawRecord)

/-- `os.listdir`: the names present in the directory. -/
def listdir (d : Dir) : List String := d.files.map Prod.fst

/-- `KoE5MRCProcessor._read_json`: opens the named file (FileNotFoundError
when absent) and returns its parsed contents. -/
def read_json (d : Dir) (input_file : String) : Except PyError (List RawRecord) :=
  match d.files.find? (fun kv => kv.1 = input_file) with
  | some kv => Except.ok kv.2
  | none => Except.error (PyError.fileNotFound input_file)

/-- `KoE5MRCProcessor._read_jsonl`: same file-opening behaviour on the
embedded (pre-parsed) directory. -/
def read_jsonl (d : Dir) (input_file : String) : Except PyError (List RawRecord) :=
  match d.files.find? (fun kv => kv.1 = input_file) with
  | some kv => Except.ok kv.2
  | none => Except.error (PyError.fileNotFound input_file)

/-- `KoE5MRCProcessor.get_train_examples`. -/
def get_train_examples (d : Dir) : Except PyError (List InputExample) :=
  if "train.json" ∈ listdir d then do
    let datas ← read_json d "train.json"
    create_examples datas "train"
  else do
    let datas ← read_jsonl d "train.jsonl"
    create_examples datas "train"

/-- `KoE5MRCProcessor.get_dev_examples`. -/
def get_dev_examples (d : Dir) : Except PyError (List InputExample) :=
  if "dev.json" ∈ listdir d then do
    let datas ← read_json d "dev.json"
    create_examples datas "dev"
  else do
    let datas ← read_jsonl d "dev.jsonl"
    create_examples datas "dev"

/-- `KoE5MRCProcessor.get_test_examples`. -/
def get_test_examples (d : Dir) : Except PyError (List InputExample) :=
  if "test.json" ∈ listdir d then do
    let datas ← read_json d "test.json"
    create_examples datas "test"
  else do
    let datas ← read_jsonl d "test.jsonl"
    create_examples datas "test"

/-- An abstract pretrained tokenizer: a raw (unpadded, untruncated)
encoding of a string into token ids, a pad token id, and the configured
`model_max_length`. -/
structure Tokenizer where
  encode : String → List Nat
  pad_token_id : Nat
  model_max_length : Nat

/-- One tokenizer call as issued by `convert_examples_to_features`
(`padding="max_length"`, `truncation=True`, the given `max_length`):
ids truncated to `max_length` then padded with the pad token, and the
matching attention mask (1 on real tokens, 0 on padding).  Returns
(input_ids, attention_mask). -/
def encodeWithPadding (tk : Tokenizer) (max_length : Nat) (text : String) :
    List Nat × List Nat :=
  let ids := (tk.encode text).take max_length
  (ids ++ List.replicate (max_length - ids.length) tk.pad_token_id,
   List.replicate ids.length 1 ++ List.replicate (max_length - ids.length) 0)

/-- Tokenizing the negative-passage column entry: a None text raises the
tokenizer's input validation error (a TypeError kind). -/
def encodeOptText (tk : Tokenizer) (max_length : Nat) :
    Option String → Except PyError (List Nat × List Nat)
  | some s => Except.ok (encodeWithPadding tk max_length s)
  | none => Except.error PyError.typeError

/-- One assembled feature record of `convert_examples_to_features`:
six parallel integer sequences. -/
structure FeatureSet where
  query_input_ids : List Nat
  query_attention_mask : List Nat
  document_input_ids : List Nat
  document_attention_mask : List Nat
  hard_negative_input_ids : List Nat
  hard_negative_attention_mask : List Nat
deriving DecidableEq, Repr

/-- `convert_examples_to_features`: default the max length to the
tokenizer's configured maximum, batch-tokenize each of the three text
columns independently, then assemble the i-th feature record from row i
of each of the three batches. -/
def convert_examples_to_features (examples : List InputExample)
    (tokenizer : Tokenizer) (max_length : Option Nat) :
    Except PyError (List FeatureSet) := do
  let L := max_length.getD tokenizer.model_max_length
  let query_batch_encoding :=
    examples.map (fun ex => encodeWithPadding tokenizer L ex.query)
  let document_batch_encoding :=
    examples.map (fun ex => encodeWithPadding tokenizer L ex.positive_passage)
  let negative_batch_encoding ←
    examples.mapM (fun ex => encodeOptText tokenizer L ex.negative_passage)
  Except.ok <|
    (query_batch_encoding.zip (document_batch_encoding.zip negative_batch_encoding)).map
      (fun row =>
        { query_input_ids := row.1.1
          query_attention_mask := row.1.2
          document_input_ids := row.2.1.1
          document_attention_mask := row.2.1.2
          hard_negative_input_ids := row.2.2.1
          hard_negative_attention_mask := row.2.2.2 })

/-- Dict lookup on an association list (Python `d[k]` up to the
KeyError raised on a miss, see `lookupInstruct`). -/
def dictFind (tbl : List (String × String)) (k : String) : Option String :=
  (tbl.find? (fun kv => kv.1 = k)).map Prod.snd

/-- Python `d[task_name]`: the value when present, KeyError otherwise. -/
def lookupInstruct (tbl : List (String × String)) (task_name : String) :
    Except PyError String :=
  match dictFind tbl task_name with
  | some v => Except.ok v
  | none => Except.error (PyError.keyError task_name)

/-- The `task_name_to_instruct` table of the `Classification` branch. -/
def classification_table : List (String × String) :=
  [("AmazonCounterfactualClassification", "Classify a given Amazon customer review text as either counterfactual or not-counterfactual"),
   ("AmazonPolarityClassification", "Classify Amazon reviews into positive or negative sentiment"),
   ("AmazonReviewsClassification", "Classify the given Amazon review into its appropriate rating category"),
   ("Banking77Classification", "Given a online banking query, find the corresponding intents"),
   ("EmotionClassification", "Classify the emotion expressed in the given Twitter message into one of the six emotions: anger, fear, joy, love, sadness, and surprise"),
   ("ImdbClassification", "Classify the sentiment expressed in the given movie review text from the IMDB dataset"),
   ("MassiveIntentClassification", "Given a user utterance as query, find the user intents"),
   ("MassiveScenarioClassification", "Given a user utterance as query, find the user scenarios"),
   ("MTOPDomainClassification", "Classify the intent domain of the given utterance in task-oriented conversation"),
   ("MTOPIntentClassification", "Classify the intent of the given utterance in task-oriented conversation"),
   ("ToxicConversationsClassification", "Classify the given comments as either toxic or not toxic"),
   ("TweetSentimentExtractionClassification", "Classify the sentiment of a given tweet as either positive, negative, or neutral"),
   ("TNews", "Classify the fine-grained category of the given news title"),
   ("IFlyTek", "Given an App description text, find the appropriate fine-grained category"),
   ("MultilingualSentiment", "Classify sentiment of the customer review into positive, neutral, or negative"),
   ("JDReview", "Classify the customer review for iPhone on e-commerce platform into positive or negative"),
   ("OnlineShopping", "Classify the customer review for online shopping into positive or negative"),
   ("Waimai", "Classify the customer review from a food takeaway platform into positive or negative")]

/-- The `task_name_to_instruct` table of the `Clustering` branch. -/
def clustering_table : List (String × String) :=
  [("ArxivClusteringP2P", "Identify the main and secondary category of Arxiv papers based on the titles and abstracts"),
   ("ArxivClusteringS2S", "Identify the main and secondary category of Arxiv papers based on the titles"),
   ("BiorxivClusteringP2P", "Identify the main category of Biorxiv papers based on the titles and abstracts"),
   ("BiorxivClusteringS2S", "Identify the main category of Biorxiv papers based on the titles"),
   ("MedrxivClusteringP2P", "Identify the main category of Medrxiv papers based on the titles and abstracts"),
   ("MedrxivClusteringS2S", "Identify the main category of Medrxiv papers based on the titles"),
   ("RedditClustering", "Identify the topic or theme of Reddit posts based on the titles"),
   ("RedditClusteringP2P", "Identify the topic or theme of Reddit posts based on the titles and posts"),
   ("StackExchangeClustering", "Identify the topic or theme of StackExchange posts based on the titles"),
   ("StackExchangeClusteringP2P", "Identify the topic or theme of StackExchange posts based on the given paragraphs"),
   ("TwentyNewsgroupsClustering", "Identify the topic or theme of the given news articles"),
   ("CLSClusteringS2S", "Identify the main category of scholar papers based on the titles"),
   ("CLSClusteringP2P", "Identify the main category of scholar papers based on the titles and abstracts"),
   ("ThuNewsClusteringS2S", "Identify the topic or theme of the given news articles based on the titles"),
   ("ThuNewsClusteringP2P", "Identify the topic or theme of the given news articles based on the titles and contents")]

/-- The `task_name_to_instruct` table of the `Reranking` /
`PairClassification` branch. -/
def reranking_table : List (String × String) :=
  [("AskUbuntuDupQuestions", "Retrieve duplicate questions from AskUbuntu forum"),
   ("MindSmallReranking", "Retrieve relevant news articles based on user browsing history"),
   ("SciDocsRR", "Given a title of a scientific paper, retrieve the titles of other relevant papers"),
   ("StackOverflowDupQuestions", "Retrieve duplicate questions from StackOverflow forum"),
   ("SprintDuplicateQuestions", "Retrieve duplicate questions from Sprint forum"),
   ("TwitterSemEval2015", "Retrieve tweets that are semantically similar to the given tweet"),
   ("TwitterURLCorpus", "Retrieve tweets that are semantically similar to the given tweet"),
   ("T2Reranking", "Given a Chinese search query, retrieve web passages that answer the question"),
   ("MMarcoReranking", "Given a Chinese search query, retrieve web passages that answer the question"),
   ("CMedQAv1", "Given a Chinese community medical question, retrieve replies that best answer the question"),
   ("CMedQAv2", "Given a Chinese community medical question, retrieve replies that best answer the question"),
   ("Ocnli", "Retrieve semantically similar text."),
   ("Cmnli", "Retrieve semantically similar text.")]

/-- The base `task_name_to_instruct` table of the `Retrieval` branch,
before the lower-cased keys and the alias entries are added. -/
def retrieval_base_table : List (String × String) :=
  [("ArguAna", "Given a claim, find documents that refute the claim"),
   ("ClimateFEVER", "Given a claim about climate change, retrieve documents that support or refute the claim"),
   ("DBPedia", "Given a query, retrieve relevant entity descriptions from DBPedia"),
   ("FEVER", "Given a claim, retrieve documents that support or refute the claim"),
   ("FiQA2018", "Given a financial question, retrieve user replies that best answer the question"),
   ("HotpotQA", "Given a multi-hop question, retrieve documents that can help answer the question"),
   ("MSMARCO", "Given a web search query, retrieve relevant passages that answer the query"),
   ("NFCorpus", "Given a question, retrieve relevant documents that best answer the question"),
   ("NQ", "Given a question, retrieve Wikipedia passages that answer the question"),
   ("QuoraRetrieval", "Given a question, retrieve questions that are semantically equivalent to the given question"),
   ("SCIDOCS", "Given a scientific paper title, retrieve paper abstracts that are cited by the given paper"),
   ("SciFact", "Given a scientific claim, retrieve documents that support or refute the claim"),
   ("Touche2020", "Given a question, retrieve detailed and persuasive arguments that answer the question"),
   ("TRECCOVID", "Given a query on COVID-19, retrieve documents that answer the query"),
   ("T2Retrieval", "Given a Chinese search query, retrieve web passages that answer the question"),
   ("MMarcoRetrieval", "Given a web search query, retrieve relevant passages that answer the query"),
   ("DuRetrieval", "Given a Chinese search query, retrieve web passages that answer the question"),
   ("CovidRetrieval", "Given a question on COVID-19, retrieve news articles that answer the question"),
   ("CmedqaRetrieval", "Given a Chinese community medical question, retrieve replies that best answer the question"),
   ("EcomRetrieval", "Given a user query from an e-commerce website, retrieve description sentences of relevant products"),
   ("MedicalRetrieval", "Given a medical question, retrieve user replies that best answer the question"),
   ("VideoRetrieval", "Given a video search query, retrieve the titles of relevant videos")]

/-- Python `str.lower()`: character-wise lower-casing (the keys involved
are ASCII). -/
def pyLower (s : String) : String := String.mk (s.data.map Char.toLower)

/-- The `Retrieval` table after `update` with the lower-cased copies of
every key, the six beir alias assignments (each reading its value out of
the updated dict), and the miracl entry. -/
def retrieval_full_table : List (String × String) :=
  let updated := retrieval_base_table ++
    retrieval_base_table.map (fun kv => (pyLower kv.1, kv.2))
  updated ++
    [("trec-covid", (dictFind updated "TRECCOVID").getD ""),
     ("climate-fever", (dictFind updated "ClimateFEVER").getD ""),
     ("dbpedia-entity", (dictFind updated "DBPedia").getD ""),
     ("webis-touche2020", (dictFind updated "Touche2020").getD ""),
     ("fiqa", (dictFind updated "FiQA2018").getD ""),
     ("quora", (dictFind updated "QuoraRetrieval").getD ""),
     ("miracl", "Given a question, retrieve Wikipedia passages that answer the question")]

/-- `get_task_def_by_task_name_and_type` from utils.py: category
dispatch on `task_type`, per-category dict lookups (KeyError on a
miss), the cqadupstack special case of the `Retrieval` branch, and the
final ValueError for an unrecognized `task_type`. -/
def get_task_def_by_task_name_and_type (task_name : String)
    (task_type : String) : Except PyError String :=
  if task_type ∈ ["STS"] then
    Except.ok "Retrieve semantically similar text."
  else if task_type ∈ ["Summarization"] then
    Except.ok "Given a news summary, retrieve other semantically similar summaries"
  else if task_type ∈ ["BitextMining"] then
    Except.ok "Retrieve parallel sentences."
  else if task_type ∈ ["Classification"] then
    lookupInstruct classification_table task_name
  else if task_type ∈ ["Clustering"] then
    lookupInstruct clustering_table task_name
  else if task_type ∈ ["Reranking", "PairClassification"] then
    lookupInstruct reranking_table task_name
  else if task_type ∈ ["Retrieval"] then
    if "cqadupstack".data.isPrefixOf (pyLower task_name).data then
      Except.ok "Given a question, retrieve detailed question descriptions from Stackexchange that are duplicates to the given question"
    else
      lookupInstruct retrieval_full_table task_name
  else
    Except.error (PyError.valueError
      ("No instruction config for task " ++ task_name ++ " with type " ++ task_type))

/-- `get_detailed_instruct` from utils.py: the empty (falsy) task
description yields the empty string; otherwise the description is
wrapped into the instruct template. -/
def get_detailed_instruct (task_description : String) : String :=
  if task_description.isEmpty then ""
  else "Instruct: " ++ task_description ++ "\nQuery: "

/-! Helper lemmas about `Except` and `List.mapM` in the `Except` monad. -/

theorem except_bind_err {ε α β : Type} (e : ε) (g : α → Except ε β) :
    (Except.error e >>= g) = Except.error e := rfl

theorem except_bind_ok {ε α β : Type} (a : α) (g : α → Except ε β) :
    (Except.ok a >>= g) = g a := rfl

theorem except_pure_eq {ε α : Type} (a : α) : (pure a : Except ε α) = Except.ok a := rfl

theorem mapM_ok_spec {ε α β : Type} (f : α → Except ε β) :
    ∀ (l : List α) (out : List β), l.mapM f = Except.ok out →
      out.length = l.length ∧
      ∀ i, i < l.length → ∃ x, l[i]? = some x ∧ out[i]? = (f x).toOption := by
  intro l
  induction l with
  | nil =>
    intro out h
    rw [List.mapM_nil, except_pure_eq] at h
    cases h
    exact ⟨rfl, fun i hi => absurd hi (by simp)⟩
  | cons a as ih =>
    intro out h
    rw [List.mapM_cons] at h
    cases hfa : f a with
    | error e => rw [hfa, except_bind_err] at h; cases h
    | ok b =>
      rw [hfa, except_bind_ok] at h
      cases hrest : as.mapM f with
      | error e => rw [hrest, except_bind_err] at h; cases h
      | ok bs =>
        rw [hrest, except_bind_ok, except_pure_eq] at h
        cases h
        obtain ⟨hlen, hget⟩ := ih bs hrest
        refine ⟨by simp [hlen], ?_⟩
        intro i hi
        cases i with
        | zero => exact ⟨a, by simp, by simp [hfa, Except.toOption]⟩
        | succ j =>
          have hj : j < as.length := by simpa using hi
          obtain ⟨x, hx1, hx2⟩ := hget j hj
          exact ⟨x, by simpa using hx1, by simpa using hx2⟩

theorem mapM_ok_of_forall {ε α β : Type} (f : α → Except ε β) :
    ∀ l : List α, (∀ x ∈ l, ∃ y, f x = Except.ok y) →
      ∃ out, l.mapM f = Except.ok out := by
  intro l
  induction l with
  | nil => intro h; exact ⟨[], by rw [List.mapM_nil, except_pure_eq]⟩
  | cons a as ih =>
    intro h
    obtain ⟨b, hb⟩ := h a (by simp)
    obtain ⟨bs, hbs⟩ := ih (fun x hx => h x (by simp [hx]))
    refine ⟨b :: bs, ?_⟩
    rw [List.mapM_cons, hb, except_bind_ok, hbs, except_bind_ok, except_pure_eq]

/-! Validity of raw records (the spec's notion of a valid RawRecord:
required keys present, each value a string or a non-empty list). -/

/-- A field value the extraction policy accepts without raising:
a string, or a list with at least one element. -/
def validText : StrOrList → Bool
  | .str _ => true
  | .list [] => false
  | .list (_ :: _) => true

/-- A valid raw record: query and document values valid, and the
hard_negative value (when the key is present) valid. -/
def validRecord (r : RawRecord) : Bool :=
  validText r.query && validText r.document &&
    (match r.hard_negative with
     | some v => validText v
     | none => true)

theorem extractFirst_ok_of_valid {v : StrOrList} (h : validText v = true) :
    ∃ s, extractFirst v = Except.ok s := by
  cases v with
  | str s => exact ⟨s, rfl⟩
  | list l =>
    cases l with
    | nil => simp [validText] at h
    | cons x xs => exact ⟨x, rfl⟩

theorem exampleOfRecord_eq_of_parts (r : RawRecord) (q d : String)
    (hn : Option String)
    (hq : extractFirst r.query = Except.ok q)
    (hd : extractFirst r.document = Except.ok d)
    (hhn : extractNegative r.hard_negative = Except.ok hn) :
    exampleOfRecord r = Except.ok (E5InputExample q d hn) := by
  unfold exampleOfRecord
  rw [hq, except_bind_ok, hd, except_bind_ok, hhn, except_bind_ok]

theorem exampleOfRecord_ok_of_valid {r : RawRecord}
    (h : validRecord r = true) :
    ∃ e, exampleOfRecord r = Except.ok e := by
  unfold validRecord at h
  rw [Bool.and_eq_true, Bool.and_eq_true] at h
  obtain ⟨⟨hq, hd⟩, hh⟩ := h
  obtain ⟨q, hq'⟩ := extractFirst_ok_of_valid hq
  obtain ⟨d, hd'⟩ := extractFirst_ok_of_valid hd
  cases hhn : r.hard_negative with
  | none =>
    exact ⟨E5InputExample q d none,
      exampleOfRecord_eq_of_parts r q d none hq' hd'
        (by simp only [hhn, extractNegative])⟩
  | some v =>
    rw [hhn] at hh
    obtain ⟨s, hs⟩ := extractFirst_ok_of_valid hh
    exact ⟨E5InputExample q d (some s),
      exampleOfRecord_eq_of_parts r q d (some s) hq' hd'
        (by simp only [hhn, extractNegative, hs, Except.map])⟩

theorem exampleOfRecord_ok_inv {r : RawRecord} {e : InputExample}
    (h : exampleOfRecord r = Except.ok e) :
    ∃ q d hn, extractFirst r.query = Except.ok q ∧
      extractFirst r.document = Except.ok d ∧
      extractNegative r.hard_negative = Except.ok hn ∧
      e = E5InputExample q d hn := by
  unfold exampleOfRecord at h
  cases hq : extractFirst r.query with
  | error err => rw [hq, except_bind_err] at h; cases h
  | ok q =>
    rw [hq, except_bind_ok] at h
    cases hd : extractFirst r.document with
    | error err => rw [hd, except_bind_err] at h; cases h
    | ok d =>
      rw [hd, except_bind_ok] at h
      cases hn : extractNegative r.hard_negative with
      | error err => rw [hn, except_bind_err] at h; cases h
      | ok nval =>
        rw [hn, except_bind_ok] at h
        cases h
        exact ⟨q, d, nval, rfl, rfl, rfl, rfl⟩

theorem find?_name_eq_none {d : Dir} {name : String} (h : name ∉ listdir d) :
    d.files.find? (fun kv => kv.1 = name) = none := by
  rw [List.find?_eq_none]
  intro kv hkv
  simp only [decide_eq_true_eq]
  intro heq
  exact h (by rw [← heq]; exact List.mem_map_of_mem Prod.fst hkv)

theorem read_json_not_found {d : Dir} {name : String} (h : name ∉ listdir d) :
    read_json d name = Except.error (PyError.fileNotFound name) := by
  unfold read_json
  rw [find?_name_eq_none h]

theorem read_jsonl_not_found {d : Dir} {name : String} (h : name ∉ listdir d) :
    read_jsonl d name = Except.error (PyError.fileNotFound name) := by
  unfold read_jsonl
  rw [find?_name_eq_none h]

/-! The claims. -/

/-- C4: every Example built by the retrieval-variant constructor
`E5InputExample` has a query field that starts with the text
"query: " and a positive_passage field that starts with the text
"passage: " (starting-with rendered as: the field is the marker
followed by some remainder). -/
theorem C4_field_markers (q p : String) (n : Option String) :
    (∃ rest, (E5InputExample q p n).query = "query: " ++ rest) ∧
    (∃ rest, (E5InputExample q p n).positive_passage = "passage: " ++ rest) :=
  ⟨⟨q, rfl⟩, ⟨p, rfl⟩⟩

/-- C10: `get_detailed_instruct` returns the empty string on an empty
task description, and otherwise returns exactly "Instruct: " followed
by the description followed by a newline and "Query: "; being a total
function, it never fails. -/
theorem C10_detailed_instruct_shape (task_description : String) :
    (task_description = "" → get_detailed_instruct task_description = "") ∧
    (task_description ≠ "" →
      get_detailed_instruct task_description =
        "Instruct: " ++ task_description ++ "\nQuery: ") := by
  constructor
  · intro h; subst h; rfl
  · intro h
    unfold get_detailed_instruct
    rw [if_neg]
    simpa [String.isEmpty_iff] using h

/-- C10 witness: the theorem applied at the empty and at a non-empty
description. -/
theorem C10_detailed_instruct_shape_witness :
    get_detailed_instruct "" = "" ∧
    get_detailed_instruct "task" = "Instruct: task\nQuery: " :=
  ⟨(C10_detailed_instruct_shape "").1 rfl,
   (C10_detailed_instruct_shape "task").2 (by decide)⟩

/-- C1 counterexample: on the record with query "q", document "d" and
no hard_negative key, `_create_examples` yields an Example whose
negative_passage is the string "passage: None" — a string (the f-string
rendering of None behind the "passage: " marker), not null and not the
empty string, contradicting the claim that the field is null. -/
theorem C1_null_negative_counterexample :
    create_examples [{ query := StrOrList.str "q", document := StrOrList.str "d",
                       hard_negative := none }] "train" =
      Except.ok [{ query := "query: q", positive_passage := "passage: d",
                   negative_passage := some "passage: None" }] ∧
    some "passage: None" ≠ (none : Option String) ∧
    some "passage: None" ≠ some "" := by
  refine ⟨?_, by simp, by simp⟩
  rfl

/-- C1 amended: for every raw record in which the hard_negative key is
absent, the Example produced by the example builder has
negative_passage equal to the string "passage: None" (the "passage: "
marker applied to the textual rendering of the null set by the
builder), rather than null. -/
theorem C1_absent_negative_rendered (datas : List RawRecord)
    (set_type : String) (out : List InputExample) (i : Nat) (r : RawRecord)
    (hout : create_examples datas set_type = Except.ok out)
    (hi : i < datas.length)
    (hr : datas[i]? = some r)
    (hnone : r.hard_negative = none) :
    ∃ e, out[i]? = some e ∧ e.negative_passage = some "passage: None" := by
  obtain ⟨hlen, hget⟩ := mapM_ok_spec exampleOfRecord datas out hout
  obtain ⟨x, hx1, hx2⟩ := hget i hi
  rw [hr] at hx1
  cases hx1
  have hi' : i < out.length := hlen ▸ hi
  cases hoi : exampleOfRecord r with
  | error err =>
    rw [hoi] at hx2
    rw [List.getElem?_eq_getElem hi'] at hx2
    simp [Except.toOption] at hx2
  | ok e =>
    rw [hoi] at hx2
    obtain ⟨q2, d2, hn2, _, _, hhn2, he⟩ := exampleOfRecord_ok_inv hoi
    rw [hnone] at hhn2
    have hn2none : hn2 = none := by
      simpa [extractNegative] using hhn2.symm
    subst hn2none
    refine ⟨e, by simpa [Except.toOption] using hx2, ?_⟩
    rw [he]
    rfl

/-- C1 witness for the amended claim: the record with query "q",
document "d" and no hard_negative key. -/
theorem C1_absent_negative_rendered_witness :
    ∃ e, ([{ query := "query: q", positive_passage := "passage: d",
             negative_passage := some "passage: None" }] :
               List InputExample)[0]? = some e ∧
      e.negative_passage = some "passage: None" :=
  C1_absent_negative_rendered
    [{ query := StrOrList.str "q", document := StrOrList.str "d",
       hard_negative := none }]
    "train"
    [{ query := "query: q", positive_passage := "passage: d",
       negative_passage := some "passage: None" }]
    0
    { query := StrOrList.str "q", document := StrOrList.str "d",
      hard_negative := none }
    (by rfl) (by decide) (by rfl) (by rfl)

/-- C3: on every sequence of valid raw records the example builder
succeeds, returns exactly one Example per raw record (output length
equals input record count), and the i-th Example is the one built from
the i-th raw record. -/
theorem C3_length_and_order (datas : List RawRecord) (set_type : String)
    (h : ∀ r ∈ datas, validRecord r = true) :
    ∃ out, create_examples datas set_type = Except.ok out ∧
      out.length = datas.length ∧
      ∀ i, i < datas.length → ∃ r, datas[i]? = some r ∧
        out[i]? = (exampleOfRecord r).toOption := by
  obtain ⟨out, hout⟩ := mapM_ok_of_forall exampleOfRecord datas
    (fun r hr => exampleOfRecord_ok_of_valid (h r hr))
  obtain ⟨hlen, hget⟩ := mapM_ok_spec exampleOfRecord datas out hout
  exact ⟨out, hout, hlen, hget⟩

/-- C3 witness: two valid records, one with a list-valued query and a
hard_negative, one without. -/
theorem C3_length_and_order_witness :
    ∃ out, create_examples
        [{ query := StrOrList.str "a", document := StrOrList.str "b",
           hard_negative := none },
         { query := StrOrList.list ["x", "y"], document := StrOrList.str "c",
           hard_negative := some (StrOrList.str "z") }] "train" =
        Except.ok out ∧ out.length = 2 := by
  obtain ⟨out, h1, h2, _⟩ := C3_length_and_order
    [{ query := StrOrList.str "a", document := StrOrList.str "b",
       hard_negative := none },
     { query := StrOrList.list ["x", "y"], document := StrOrList.str "c",
       hard_negative := some (StrOrList.str "z") }] "train" (by decide)
  exact ⟨out, h1, by simpa using h2⟩

/-- C7: whenever `<split>.json` is listed in the directory, the example
builder for that split goes down the `.json` branch: its result is
exactly the `.json` read piped into `_create_examples`, and (fourth
conjunct) the result does not depend on the `<split>.jsonl` contents at
all — two directories that agree on the listing membership of
train.json and on the train.json contents give the same result
whatever their train.jsonl files hold. -/
theorem C7_json_priority_over_jsonl :
    (∀ d : Dir, "train.json" ∈ listdir d →
       get_train_examples d =
         read_json d "train.json" >>= fun datas => create_examples datas "train") ∧
    (∀ d : Dir, "dev.json" ∈ listdir d →
       get_dev_examples d =
         read_json d "dev.json" >>= fun datas => create_examples datas "dev") ∧
    (∀ d : Dir, "test.json" ∈ listdir d →
       get_test_examples d =
         read_json d "test.json" >>= fun datas => create_examples datas "test") ∧
    (∀ d d' : Dir, "train.json" ∈ listdir d → "train.json" ∈ listdir d' →
       read_json d "train.json" = read_json d' "train.json" →
       get_train_examples d = get_train_examples d') := by
  have htr : ∀ d : Dir, "train.json" ∈ listdir d →
      get_train_examples d =
        read_json d "train.json" >>= fun datas => create_examples datas "train" := by
    intro d hd
    unfold get_train_examples
    rw [if_pos hd]
  refine ⟨htr, ?_, ?_, ?_⟩
  · intro d hd
    unfold get_dev_examples
    rw [if_pos hd]
  · intro d hd
    unfold get_test_examples
    rw [if_pos hd]
  · intro d d' h1 h2 heq
    rw [htr d h1, htr d' h2, heq]

/-- C7 witness: two directories that both contain train.json and
train.jsonl, agree on train.json, and differ on train.jsonl, give the
same training examples. -/
theorem C7_json_priority_over_jsonl_witness :
    get_train_examples
      { files := [("train.json",
                    [{ query := StrOrList.str "a", document := StrOrList.str "b",
                       hard_negative := none }]),
                  ("train.jsonl",
                    [{ query := StrOrList.str "x", document := StrOrList.str "y",
                       hard_negative := none }])] } =
    get_train_examples
      { files := [("train.json",
                    [{ query := StrOrList.str "a", document := StrOrList.str "b",
                       hard_negative := none }]),
                  ("train.jsonl",
                    [{ query := StrOrList.str "u", document := StrOrList.str "v",
                       hard_negative := some (StrOrList.str "w") }])] } :=
  C7_json_priority_over_jsonl.2.2.2 _ _ (by decide) (by decide) (by rfl)

/-- C8: when the directory lists neither dev.json nor dev.jsonl, the
dev example builder fails with the FileNotFoundError kind (raised for
the dev.jsonl open) and produces no examples. -/
theorem C8_missing_dev_files (d : Dir)
    (h1 : "dev.json" ∉ listdir d) (h2 : "dev.jsonl" ∉ listdir d) :
    get_dev_examples d = Except.error (PyError.fileNotFound "dev.jsonl") := by
  unfold get_dev_examples
  rw [if_neg h1, read_jsonl_not_found h2, except_bind_err]

/-- C8 witness: a directory holding only a train.json file. -/
theorem C8_missing_dev_files_witness :
    get_dev_examples { files := [("train.json", [])] } =
      Except.error (PyError.fileNotFound "dev.jsonl") :=
  C8_missing_dev_files { files := [("train.json", [])] } (by decide) (by decide)

/-- C9: when the query, document or hard_negative value of a record is
a non-empty list, the builder uses element 0 of that list as the
field's text; in particular the record with query ["q1", "q2"] and
document "d1" yields the Example whose query is "query: q1". -/
theorem C9_list_takes_first :
    (∀ (q : String) (qs : List String) (docv : StrOrList)
       (hnv : Option StrOrList) (e : InputExample),
       exampleOfRecord { query := StrOrList.list (q :: qs), document := docv,
                         hard_negative := hnv } = Except.ok e →
       e.query = "query: " ++ q) ∧
    (∀ (dv : String) (ds : List String) (qv : StrOrList)
       (hnv : Option StrOrList) (e : InputExample),
       exampleOfRecord { query := qv, document := StrOrList.list (dv :: ds),
                         hard_negative := hnv } = Except.ok e →
       e.positive_passage = "passage: " ++ dv) ∧
    (∀ (nv : String) (ns : List String) (qv docv : StrOrList) (e : InputExample),
       exampleOfRecord { query := qv, document := docv,
                         hard_negative := some (StrOrList.list (nv :: ns)) } =
           Except.ok e →
       e.negative_passage = some ("passage: " ++ nv)) ∧
    (∀ set_type : String,
       create_examples [{ query := StrOrList.list ["q1", "q2"],
                          document := StrOrList.str "d1",
                          hard_negative := none }] set_type =
         Except.ok [{ query := "query: q1", positive_passage := "passage: d1",
                      negative_passage := some "passage: None" }]) := by
  refine ⟨?_, ?_, ?_, fun set_type => rfl⟩
  · intro q qs docv hnv e h
    obtain ⟨q', d', hn', hq, _, _, he⟩ := exampleOfRecord_ok_inv h
    have hq' : q' = q := by simpa [extractFirst] using hq.symm
    subst hq'
    rw [he]
    rfl
  · intro dv ds qv hnv e h
    obtain ⟨q', d', hn', _, hd, _, he⟩ := exampleOfRecord_ok_inv h
    have hd' : d' = dv := by simpa [extractFirst] using hd.symm
    subst hd'
    rw [he]
    rfl
  · intro nv ns qv docv e h
    obtain ⟨q', d', hn', _, _, hhn, he⟩ := exampleOfRecord_ok_inv h
    have hn'' : hn' = some nv := by
      simpa [extractNegative, extractFirst, Except.map] using hhn.symm
    subst hn''
    rw [he]
    rfl

/-- C9 witness: the claim's own concrete record, query ["q1", "q2"]
with document "d1". -/
theorem C9_list_takes_first_witness :
    ({ query := "query: q1", positive_passage := "passage: d1",
       negative_passage := some "passage: None" } : InputExample).query =
      "query: " ++ "q1" :=
  C9_list_takes_first.1 "q1" ["q2"] (StrOrList.str "d1") none
    { query := "query: q1", positive_passage := "passage: d1",
      negative_passage := some "passage: None" }
    (by rfl)

theorem convert_eq (examples : List InputExample) (tk : Tokenizer)
    (ml : Option Nat) :
    convert_examples_to_features examples tk ml =
      (examples.mapM (fun ex =>
          encodeOptText tk (ml.getD tk.model_max_length) ex.negative_passage)) >>=
        fun nb => Except.ok
          (((examples.map (fun ex =>
              encodeWithPadding tk (ml.getD tk.model_max_length) ex.query)).zip
            ((examples.map (fun ex =>
              encodeWithPadding tk (ml.getD tk.model_max_length) ex.positive_passage)).zip
             nb)).map
            (fun row =>
              { query_input_ids := row.1.1
                query_attention_mask := row.1.2
                document_input_ids := row.2.1.1
                document_attention_mask := row.2.1.2
                hard_negative_input_ids := row.2.2.1
                hard_negative_attention_mask := row.2.2.2 })) := rfl

theorem encodeWithPadding_length (tk : Tokenizer) (L : Nat) (s : String) :
    (encodeWithPadding tk L s).1.length = L ∧
    (encodeWithPadding tk L s).2.length = L := by
  unfold encodeWithPadding
  constructor <;> simp <;> omega

/-- C5: with an explicitly supplied max_length L, every sequence in
every FeatureSet returned by `convert_examples_to_features` — the three
input_ids sequences and the three attention_mask sequences — has length
exactly L (the tokenizer padding to max_length and truncating, as the
call configures). -/
theorem C5_feature_lengths (examples : List InputExample)
    (tokenizer : Tokenizer) (L : Nat) (feats : List FeatureSet)
    (h : convert_examples_to_features examples tokenizer (some L) =
           Except.ok feats) :
    ∀ f ∈ feats,
      f.query_input_ids.length = L ∧ f.query_attention_mask.length = L ∧
      f.document_input_ids.length = L ∧ f.document_attention_mask.length = L ∧
      f.hard_negative_input_ids.length = L ∧
      f.hard_negative_attention_mask.length = L := by
  rw [convert_eq] at h
  simp only [Option.getD_some] at h
  cases hneg : examples.mapM
      (fun ex => encodeOptText tokenizer L ex.negative_passage) with
  | error err => rw [hneg, except_bind_err] at h; cases h
  | ok nb =>
    rw [hneg, except_bind_ok] at h
    cases h
    intro f hf
    rw [List.mem_map] at hf
    obtain ⟨row, hrow, rfl⟩ := hf
    obtain ⟨hq, hdn⟩ := List.of_mem_zip hrow
    obtain ⟨hd, hn⟩ := List.of_mem_zip hdn
    rw [List.mem_map] at hq hd
    obtain ⟨ex1, _, hq1⟩ := hq
    obtain ⟨ex2, _, hd1⟩ := hd
    obtain ⟨i, hni⟩ := List.mem_iff_getElem?.1 hn
    obtain ⟨hlen, hget⟩ := mapM_ok_spec _ examples nb hneg
    have hilt : i < examples.length :=
      hlen ▸ (List.getElem?_eq_some.1 hni).1
    obtain ⟨ex3, _, hx2⟩ := hget i hilt
    rw [hni] at hx2
    cases hex3 : ex3.negative_passage with
    | none => rw [hex3] at hx2; simp [encodeOptText, Except.toOption] at hx2
    | some s =>
      have hrow3 : row.2.2 = encodeWithPadding tokenizer L s := by
        rw [hex3] at hx2
        simpa [encodeOptText, Except.toOption] using hx2
      refine ⟨?_, ?_, ?_, ?_, ?_, ?_⟩
      · rw [← hq1]; exact (encodeWithPadding_length tokenizer L ex1.query).1
      · rw [← hq1]; exact (encodeWithPadding_length tokenizer L ex1.query).2
      · rw [← hd1]
        exact (encodeWithPadding_length tokenizer L ex2.positive_passage).1
      · rw [← hd1]
        exact (encodeWithPadding_length tokenizer L ex2.positive_passage).2
      · show row.2.2.1.length = L
        rw [hrow3]; exact (encodeWithPadding_length tokenizer L s).1
      · show row.2.2.2.length = L
        rw [hrow3]; exact (encodeWithPadding_length tokenizer L s).2

/-- C5 witness: one example through a concrete tokenizer with
max_length 4; every sequence of the single returned FeatureSet has
length 4. -/
theorem C5_feature_lengths_witness :
    ([5, 5, 5, 5] : List Nat).length = 4 ∧
    ([1, 1, 1, 1] : List Nat).length = 4 ∧
    ([5, 5, 5, 5] : List Nat).length = 4 ∧
    ([1, 1, 1, 1] : List Nat).length = 4 ∧
    ([5, 5, 5, 5] : List Nat).length = 4 ∧
    ([1, 1, 1, 1] : List Nat).length = 4 :=
  C5_feature_lengths
    [{ query := "query: a", positive_passage := "passage: b",
       negative_passage := some "passage: None" }]
    { encode := fun s => List.replicate s.length 5, pad_token_id := 0,
      model_max_length := 8 }
    4
    [{ query_input_ids := [5, 5, 5, 5], query_attention_mask := [1, 1, 1, 1],
       document_input_ids := [5, 5, 5, 5],
       document_attention_mask := [1, 1, 1, 1],
       hard_negative_input_ids := [5, 5, 5, 5],
       hard_negative_attention_mask := [1, 1, 1, 1] }]
    (by rfl)
    { query_input_ids := [5, 5, 5, 5], query_attention_mask := [1, 1, 1, 1],
      document_input_ids := [5, 5, 5, 5],
      document_attention_mask := [1, 1, 1, 1],
      hard_negative_input_ids := [5, 5, 5, 5],
      hard_negative_attention_mask := [1, 1, 1, 1] }
    (by simp)

/-- C6: `convert_examples_to_features` returns exactly one FeatureSet
per example, and the i-th FeatureSet is assembled from row i of each of
the three per-column batches — its six fields are exactly the encodings
of the i-th example's query, positive passage and negative passage. -/
theorem C6_one_featureset_per_example (examples : List InputExample)
    (tokenizer : Tokenizer) (ml : Option Nat) (feats : List FeatureSet)
    (h : convert_examples_to_features examples tokenizer ml = Except.ok feats) :
    feats.length = examples.length ∧
    ∀ i, i < examples.length → ∃ ex s,
      examples[i]? = some ex ∧ ex.negative_passage = some s ∧
      feats[i]? = some
        { query_input_ids :=
            (encodeWithPadding tokenizer (ml.getD tokenizer.model_max_length)
              ex.query).1
          query_attention_mask :=
            (encodeWithPadding tokenizer (ml.getD tokenizer.model_max_length)
              ex.query).2
          document_input_ids :=
            (encodeWithPadding tokenizer (ml.getD tokenizer.model_max_length)
              ex.positive_passage).1
          document_attention_mask :=
            (encodeWithPadding tokenizer (ml.getD tokenizer.model_max_length)
              ex.positive_passage).2
          hard_negative_input_ids :=
            (encodeWithPadding tokenizer (ml.getD tokenizer.model_max_length)
              s).1
          hard_negative_attention_mask :=
            (encodeWithPadding tokenizer (ml.getD tokenizer.model_max_length)
              s).2 } := by
  rw [convert_eq] at h
  cases hneg : examples.mapM
      (fun ex => encodeOptText tokenizer (ml.getD tokenizer.model_max_length)
        ex.negative_passage) with
  | error err => rw [hneg, except_bind_err] at h; cases h
  | ok nb =>
    rw [hneg, except_bind_ok] at h
    cases h
    obtain ⟨hlen, hget⟩ := mapM_ok_spec _ examples nb hneg
    constructor
    · simp [List.length_zip, hlen]
    · intro i hi
      obtain ⟨ex, hx1, hx2⟩ := hget i hi
      cases hnegp : ex.negative_passage with
      | none =>
        exfalso
        rw [hnegp] at hx2
        have hilt : i < nb.length := hlen ▸ hi
        rw [List.getElem?_eq_getElem hilt] at hx2
        simp [encodeOptText, Except.toOption] at hx2
      | some s =>
        refine ⟨ex, s, hx1, hnegp, ?_⟩
        rw [List.getElem?_map]
        have hq : (examples.map (fun ex =>
            encodeWithPadding tokenizer (ml.getD tokenizer.model_max_length)
              ex.query))[i]? =
            some (encodeWithPadding tokenizer
              (ml.getD tokenizer.model_max_length) ex.query) := by
          rw [List.getElem?_map, hx1]; rfl
        have hd : (examples.map (fun ex =>
            encodeWithPadding tokenizer (ml.getD tokenizer.model_max_length)
              ex.positive_passage))[i]? =
            some (encodeWithPadding tokenizer
              (ml.getD tokenizer.model_max_length) ex.positive_passage) := by
          rw [List.getElem?_map, hx1]; rfl
        have hn : nb[i]? = some (encodeWithPadding tokenizer
            (ml.getD tokenizer.model_max_length) s) := by
          rw [hx2, hnegp]; rfl
        have hzip2 : ((examples.map (fun ex =>
            encodeWithPadding tokenizer (ml.getD tokenizer.model_max_length)
              ex.positive_passage)).zip nb)[i]? =
            some (encodeWithPadding tokenizer
                (ml.getD tokenizer.model_max_length) ex.positive_passage,
              encodeWithPadding tokenizer
                (ml.getD tokenizer.model_max_length) s) :=
          List.getElem?_zip_eq_some.2 ⟨hd, hn⟩
        have hzip : ((examples.map (fun ex =>
            encodeWithPadding tokenizer (ml.getD tokenizer.model_max_length)
              ex.query)).zip
            ((examples.map (fun ex =>
              encodeWithPadding tokenizer (ml.getD tokenizer.model_max_length)
                ex.positive_passage)).zip nb))[i]? =
            some (encodeWithPadding tokenizer
                (ml.getD tokenizer.model_max_length) ex.query,
              (encodeWithPadding tokenizer
                (ml.getD tokenizer.model_max_length) ex.positive_passage,
               encodeWithPadding tokenizer
                (ml.getD tokenizer.model_max_length) s)) :=
          List.getElem?_zip_eq_some.2 ⟨hq, hzip2⟩
        rw [hzip]
        rfl

/-- C6 witness: one example through a concrete tokenizer; one
FeatureSet comes back. -/
theorem C6_one_featureset_per_example_witness :
    ([{ query_input_ids := [5, 5, 5, 5], query_attention_mask := [1, 1, 1, 1],
        document_input_ids := [5, 5, 5, 5],
        document_attention_mask := [1, 1, 1, 1],
        hard_negative_input_ids := [5, 5, 5, 5],
        hard_negative_attention_mask := [1, 1, 1, 1] }] :
          List FeatureSet).length =
      ([{ query := "query: a", positive_passage := "passage: b",
          negative_passage := some "passage: None" }] :
            List InputExample).length :=
  (C6_one_featureset_per_example
    [{ query := "query: a", positive_passage := "passage: b",
       negative_passage := some "passage: None" }]
    { encode := fun s => List.replicate s.length 5, pad_token_id := 0,
      model_max_length := 8 }
    (some 4)
    [{ query_input_ids := [5, 5, 5, 5], query_attention_mask := [1, 1, 1, 1],
       document_input_ids := [5, 5, 5, 5],
       document_attention_mask := [1, 1, 1, 1],
       hard_negative_input_ids := [5, 5, 5, 5],
       hard_negative_attention_mask := [1, 1, 1, 1] }]
    (by rfl)).1

/-- C2: the instruction lookup fails with the KeyError kind whenever
`task_type` selects one of the per-category tables (Classification,
Clustering, Reranking/PairClassification, or Retrieval outside the
cqadupstack special case) and `task_name` is absent from the table the
code consults there; and an otherwise unrecognized `task_type` fails
with the ValueError kind whose message names the task. -/
theorem C2_lookup_failure_kinds (task_name task_type : String) :
    (task_type = "Classification" →
       dictFind classification_table task_name = none →
       get_task_def_by_task_name_and_type task_name task_type =
         Except.error (PyError.keyError task_name)) ∧
    (task_type = "Clustering" →
       dictFind clustering_table task_name = none →
       get_task_def_by_task_name_and_type task_name task_type =
         Except.error (PyError.keyError task_name)) ∧
    ((task_type = "Reranking" ∨ task_type = "PairClassification") →
       dictFind reranking_table task_name = none →
       get_task_def_by_task_name_and_type task_name task_type =
         Except.error (PyError.keyError task_name)) ∧
    (task_type = "Retrieval" →
       "cqadupstack".data.isPrefixOf (pyLower task_name).data = false →
       dictFind retrieval_full_table task_name = none →
       get_task_def_by_task_name_and_type task_name task_type =
         Except.error (PyError.keyError task_name)) ∧
    (task_type ∉ (["STS", "Summarization", "BitextMining", "Classification",
        "Clustering", "Reranking", "PairClassification", "Retrieval"] :
          List String) →
       get_task_def_by_task_name_and_type task_name task_type =
         Except.error (PyError.valueError
           ("No instruction config for task " ++ task_name ++
            " with type " ++ task_type))) := by
  refine ⟨?_, ?_, ?_, ?_, ?_⟩
  · intro ht hmiss
    subst ht
    simp only [get_task_def_by_task_name_and_type]
    rw [if_neg (by decide), if_neg (by decide), if_neg (by decide),
      if_pos (by decide)]
    unfold lookupInstruct
    rw [hmiss]
  · intro ht hmiss
    subst ht
    simp only [get_task_def_by_task_name_and_type]
    rw [if_neg (by decide), if_neg (by decide), if_neg (by decide),
      if_neg (by decide), if_pos (by decide)]
    unfold lookupInstruct
    rw [hmiss]
  · intro ht hmiss
    rcases ht with rfl | rfl <;>
      · simp only [get_task_def_by_task_name_and_type]
        rw [if_neg (by decide), if_neg (by decide), if_neg (by decide),
          if_neg (by decide), if_neg (by decide), if_pos (by decide)]
        unfold lookupInstruct
        rw [hmiss]
  · intro ht hcqa hmiss
    subst ht
    simp only [get_task_def_by_task_name_and_type]
    rw [if_neg (by decide), if_neg (by decide), if_neg (by decide),
      if_neg (by decide), if_neg (by decide), if_neg (by decide),
      if_pos (by decide)]
    rw [if_neg (by simp [hcqa])]
    unfold lookupInstruct
    rw [hmiss]
  · intro hnotin
    simp only [List.mem_cons, List.not_mem_nil, or_false, not_or] at hnotin
    obtain ⟨h1, h2, h3, h4, h5, h6, h7, h8⟩ := hnotin
    simp [get_task_def_by_task_name_and_type, h1, h2, h3, h4, h5, h6, h7, h8]

/-- C2 witness: an unknown task name through each per-category table
(KeyError kind), and an unknown task type (ValueError kind with the
task named in the message). -/
theorem C2_lookup_failure_kinds_witness :
    get_task_def_by_task_name_and_type "UnknownBench" "Classification" =
      Except.error (PyError.keyError "UnknownBench") ∧
    get_task_def_by_task_name_and_type "UnknownBench" "Clustering" =
      Except.error (PyError.keyError "UnknownBench") ∧
    get_task_def_by_task_name_and_type "UnknownBench" "PairClassification" =
      Except.error (PyError.keyError "UnknownBench") ∧
    get_task_def_by_task_name_and_type "UnknownBench" "Retrieval" =
      Except.error (PyError.keyError "UnknownBench") ∧
    get_task_def_by_task_name_and_type "UnknownBench" "Banana" =
      Except.error (PyError.valueError
        "No instruction config for task UnknownBench with type Banana") :=
  ⟨(C2_lookup_failure_kinds "UnknownBench" "Classification").1 rfl (by decide),
   (C2_lookup_failure_kinds "UnknownBench" "Clustering").2.1 rfl (by decide),
   (C2_lookup_failure_kinds "UnknownBench" "PairClassification").2.2.1
     (Or.inr rfl) (by decide),
   (C2_lookup_failure_kinds "UnknownBench" "Retrieval").2.2.2.1 rfl
     (by decide) (by decide),
   (C2_lookup_failure_kinds "UnknownBench" "Banana").2.2.2.2 (by decide)⟩

end EmbeddingTrain
